import Mathlib

/-!
Shallow embedding of `src/accessories/WyzeMeshLight.js` from
homebridge-wyze-connected-home.

The adapter sits between HomeKit characteristic writes and Wyze remote
property writes.  JavaScript numbers are modelled as rationals (`ℚ`) with
`Math.round` as `jsRound` (round half toward positive infinity); the
external `color-convert` library is a black box, so the hex encoding of an
HSV triple is represented by the opaque constructor `WireValue.hexColor`
and the decoding direction by an arbitrary function parameter `decode`.
A field of the JavaScript cache object that was never assigned
(`undefined`) is modelled as `none`.  The `setBufferedProperty`
collaborator is modelled as a function `remote : RemoteWrite → Except E Unit`
supplied by the environment; each handler returns the new adapter state,
the list of remote writes it issued, and the callback outcome
(`Except.ok` for `callback()`, `Except.error e` for `callback(e)`).
-/

namespace WyzeMeshLight

/-- `Math.round` in JavaScript: round half toward positive infinity. -/
def jsRound (x : ℚ) : ℤ := ⌊x + 1/2⌋

/-- Source `_rangeToFloat(value, min, max) = (value - min) / (max - min)`. -/
def _rangeToFloat (value mn mx : ℚ) : ℚ := (value - mn) / (mx - mn)

/-- Source `_floatToRange(value, min, max) = Math.round(value * (max - min) + min)`. -/
def _floatToRange (value mn mx : ℚ) : ℤ := jsRound (value * (mx - mn) + mn)

/-- Device-to-UI color-temperature conversion as composed in `updateColorTemp`:
`_floatToRange(_rangeToFloat(value, 1800, 6500), 153, 555)`. -/
def deviceToUI (v : ℚ) : ℤ := _floatToRange (_rangeToFloat v 1800 6500) 153 555

/-- UI-to-device color-temperature conversion as composed in `setColorTemperature`:
`_floatToRange(_rangeToFloat(value, 153, 555), 1800, 6500)`. -/
def uiToDevice (v : ℚ) : ℤ := _floatToRange (_rangeToFloat v 153 555) 1800 6500

/-- A value passed to `setBufferedProperty`.  `hexColor h s v` stands for the
string `ColorConverter.rgb.hex(ColorConverter.hsv.rgb(h, s, v))`, the
6-hex-digit encoding of the HSV triple; the library is a black box, so the
encoding is kept symbolic.  An `Option` argument of `none` records that the
corresponding cache field was still `undefined` when encoded. -/
inductive WireValue
  | str (s : String)
  | num (q : ℚ)
  | hexColor (hue saturation : Option ℚ) (value : ℚ)
  deriving DecidableEq, Repr

/-- One remote property write issued through `setBufferedProperty`. -/
structure RemoteWrite where
  pid : String
  value : WireValue
  deriving DecidableEq, Repr

/-- The adapter-local color cache `this.cache`, created as `{}` so every
field starts `undefined`. -/
structure ColorCache where
  hue : Option ℚ
  saturation : Option ℚ
  brightness : Option ℚ
  deriving DecidableEq, Repr

/-- The local characteristic registry as far as this adapter updates it via
`updateValue`: On, Brightness, ColorTemperature, Hue, Saturation.
Brightness is copied verbatim from the remote string value. -/
structure Characteristics where
  onState : Option Bool
  brightness : Option String
  colorTemp : Option ℤ
  hue : Option ℚ
  saturation : Option ℚ
  deriving DecidableEq, Repr

/-- Full mutable state of one `WyzeMeshLight` adapter instance. -/
structure MeshLight where
  chars : Characteristics
  cache : ColorCache
  cacheUpdated : Bool
  deriving DecidableEq, Repr

/-- State right after the constructor: no characteristic has been pushed a
value, `this.cache = {}`, `this.cacheUpdated = false`. -/
def initMeshLight : MeshLight :=
  { chars := ⟨none, none, none, none, none⟩
    cache := ⟨none, none, none⟩
    cacheUpdated := false }

/-- Result of a local `set` handler: new state, remote writes issued (in
order), and the callback outcome. -/
abbrev HandlerResult (E : Type) := MeshLight × List RemoteWrite × Except E Unit

/-- Source `setOn`: write `"1"`/`"0"` to `"P3"`, acknowledge on success,
forward the error on failure. -/
def setOn {E : Type} (remote : RemoteWrite → Except E Unit)
    (st : MeshLight) (value : Bool) : HandlerResult E :=
  let w : RemoteWrite := ⟨"P3", .str (if value then "1" else "0")⟩
  match remote w with
  | .ok _ => (st, [w], .ok ())
  | .error e => (st, [w], .error e)

/-- Source `setBrightness`: write the value to `"P1501"`; only after the
remote write succeeds is `this.cache.brightness = value` executed. -/
def setBrightness {E : Type} (remote : RemoteWrite → Except E Unit)
    (st : MeshLight) (value : ℚ) : HandlerResult E :=
  let w : RemoteWrite := ⟨"P1501", .num value⟩
  match remote w with
  | .ok _ => ({ st with cache.brightness := some value }, [w], .ok ())
  | .error e => (st, [w], .error e)

/-- Source `setColorTemperature`: remap the UI value to the device range and
write it to `"P1502"`. -/
def setColorTemperature {E : Type} (remote : RemoteWrite → Except E Unit)
    (st : MeshLight) (value : ℚ) : HandlerResult E :=
  let floatValue := _rangeToFloat value 153 555
  let wyzeValue := _floatToRange floatValue 1800 6500
  let w : RemoteWrite := ⟨"P1502", .num (wyzeValue : ℚ)⟩
  match remote w with
  | .ok _ => (st, [w], .ok ())
  | .error e => (st, [w], .error e)

/-- Source `applyColorCache`: if `cacheUpdated` is set, encode the cached
hue and saturation with a fixed value component of 100, write the hex to
`"P1507"`, and clear the flag only after the write succeeds; otherwise just
set the flag.  The callback fires after the write settles either way. -/
def applyColorCache {E : Type} (remote : RemoteWrite → Except E Unit)
    (st : MeshLight) : HandlerResult E :=
  if st.cacheUpdated then
    let w : RemoteWrite := ⟨"P1507", .hexColor st.cache.hue st.cache.saturation 100⟩
    match remote w with
    | .ok _ => ({ st with cacheUpdated := false }, [w], .ok ())
    | .error e => (st, [w], .error e)
  else
    ({ st with cacheUpdated := true }, [], .ok ())

/-- Source `setHue`: store the hue into the cache, then run `applyColorCache`
with the request's callback. -/
def setHue {E : Type} (remote : RemoteWrite → Except E Unit)
    (st : MeshLight) (value : ℚ) : HandlerResult E :=
  applyColorCache remote { st with cache.hue := some value }

/-- Source `setSaturation`: store the saturation into the cache, then run
`applyColorCache` with the request's callback. -/
def setSaturation {E : Type} (remote : RemoteWrite → Except E Unit)
    (st : MeshLight) (value : ℚ) : HandlerResult E :=
  applyColorCache remote { st with cache.saturation := some value }

/-- Source `updateBrightness`: push the remote value verbatim to the local
Brightness characteristic. -/
def updateBrightness (st : MeshLight) (value : String) : MeshLight :=
  { st with chars.brightness := some value }

/-- Source `updateColorTemp`: remap the device value to the UI range and push
it to the local ColorTemperature characteristic.  `toNum` models the
implicit string-to-number coercion of the untyped wire value. -/
def updateColorTemp (toNum : String → ℚ) (st : MeshLight) (value : String) : MeshLight :=
  let floatValue := _rangeToFloat (toNum value) 1800 6500
  let homeKitValue := _floatToRange floatValue 153 555
  { st with chars.colorTemp := some homeKitValue }

/-- Source `updateColor`: decode the 6-hex-digit string into an HSV triple
(`decode` models `ColorConverter.rgb.hsv(ColorConverter.hex.rgb(value))`),
push hue and saturation to the local characteristics, and overwrite all
three cache fields. -/
def updateColor (decode : String → ℚ × ℚ × ℚ) (st : MeshLight) (value : String) :
    MeshLight :=
  let hslValue := decode value
  { st with
      chars.hue := some hslValue.1
      chars.saturation := some hslValue.2.1
      cache.hue := some hslValue.1
      cache.saturation := some hslValue.2.1
      cache.brightness := some hslValue.2.2 }

/-- One iteration of the dispatch loop in `updateCharacteristics`: branch on
the property id, ignore unknown ids. -/
def applyProperty (toNum : String → ℚ) (decode : String → ℚ × ℚ × ℚ)
    (st : MeshLight) (p : String × String) : MeshLight :=
  if p.1 = "P1501" then updateBrightness st p.2
  else if p.1 = "P1502" then updateColorTemp toNum st p.2
  else if p.1 = "P1507" then updateColor decode st p.2
  else st

/-- Source `updateCharacteristics`: push the power flag to On, then dispatch
every property of the snapshot in order. -/
def updateCharacteristics (toNum : String → ℚ) (decode : String → ℚ × ℚ × ℚ)
    (st : MeshLight) (switchState : Bool) (props : List (String × String)) :
    MeshLight :=
  props.foldl (applyProperty toNum decode) { st with chars.onState := some switchState }

/-- A local color write event: one HomeKit `set` request on Hue or
Saturation. -/
inductive ColorEvent
  | hue (v : ℚ)
  | sat (v : ℚ)
  deriving DecidableEq, Repr

/-- Dispatch one color event to its handler. -/
def stepColorEvent {E : Type} (remote : RemoteWrite → Except E Unit)
    (st : MeshLight) : ColorEvent → HandlerResult E
  | .hue v => setHue remote st v
  | .sat v => setSaturation remote st v

/-- Run a sequence of local hue/saturation writes, collecting every remote
write issued and every callback outcome in order. -/
def runColorEvents {E : Type} (remote : RemoteWrite → Except E Unit) :
    MeshLight → List ColorEvent → MeshLight × List RemoteWrite × List (Except E Unit)
  | st, [] => (st, [], [])
  | st, e :: es =>
    let r := stepColorEvent remote st e
    let rest := runColorEvents remote r.1 es
    (rest.1, r.2.1 ++ rest.2.1, r.2.2 :: rest.2.2)

/-- A remote collaborator that accepts every write. -/
def okRemote : RemoteWrite → Except Unit Unit := fun _ => .ok ()

/-- A remote collaborator that rejects every write with error 7. -/
def failRemote : RemoteWrite → Except ℕ Unit := fun _ => .error 7

/-- Overwrite an optional field: a `some` in the first argument wins,
`none` keeps the old value. -/
def owr {α : Type} (new old : Option α) : Option α :=
  match new with
  | some x => some x
  | none => old

/-- The write footprint of one dispatch iteration: for each state field a
possible new value.  `applyProperty` never reads the state, so its effect is
fully described by such a patch. -/
structure MLPatch where
  cBright : Option String
  cTemp : Option ℤ
  cHue : Option ℚ
  cSat : Option ℚ
  kHue : Option ℚ
  kSat : Option ℚ
  kBright : Option ℚ
  deriving DecidableEq, Repr

/-- The empty patch: writes nothing. -/
def MLPatch.idPatch : MLPatch := ⟨none, none, none, none, none, none, none⟩

/-- Apply a patch to an adapter state. -/
def applyPatch (st : MeshLight) (p : MLPatch) : MeshLight :=
  { chars :=
      { onState := st.chars.onState
        brightness := owr p.cBright st.chars.brightness
        colorTemp := owr p.cTemp st.chars.colorTemp
        hue := owr p.cHue st.chars.hue
        saturation := owr p.cSat st.chars.saturation }
    cache :=
      { hue := owr p.kHue st.cache.hue
        saturation := owr p.kSat st.cache.saturation
        brightness := owr p.kBright st.cache.brightness }
    cacheUpdated := st.cacheUpdated }

/-- Sequential composition of patches; the second one wins per field. -/
def MLPatch.comp (a b : MLPatch) : MLPatch :=
  ⟨owr b.cBright a.cBright, owr b.cTemp a.cTemp, owr b.cHue a.cHue,
   owr b.cSat a.cSat, owr b.kHue a.kHue, owr b.kSat a.kSat,
   owr b.kBright a.kBright⟩

/-- The patch corresponding to one property of a snapshot. -/
def propPatch (toNum : String → ℚ) (decode : String → ℚ × ℚ × ℚ)
    (p : String × String) : MLPatch :=
  if p.1 = "P1501" then { MLPatch.idPatch with cBright := some p.2 }
  else if p.1 = "P1502" then
    { MLPatch.idPatch with
        cTemp := some (_floatToRange (_rangeToFloat (toNum p.2) 1800 6500) 153 555) }
  else if p.1 = "P1507" then
    let hslValue := decode p.2
    { cBright := none, cTemp := none
      cHue := some hslValue.1, cSat := some hslValue.2.1
      kHue := some hslValue.1, kSat := some hslValue.2.1
      kBright := some hslValue.2.2 }
  else MLPatch.idPatch

/-- The combined patch of a whole snapshot, later properties winning. -/
def snapshotPatch (toNum : String → ℚ) (decode : String → ℚ × ℚ × ℚ)
    (props : List (String × String)) : MLPatch :=
  props.foldl (fun a p => a.comp (propPatch toNum decode p)) MLPatch.idPatch

theorem owr_owr {α : Type} (b a o : Option α) :
    owr b (owr a o) = owr (owr b a) o := by
  cases b <;> rfl

theorem owr_self {α : Type} (a : Option α) : owr a a = a := by
  cases a <;> rfl

theorem applyPatch_idPatch (st : MeshLight) : applyPatch st MLPatch.idPatch = st := rfl

theorem comp_self (p : MLPatch) : p.comp p = p := by
  cases p
  simp [MLPatch.comp, owr_self]

theorem applyPatch_comp (st : MeshLight) (a b : MLPatch) :
    applyPatch (applyPatch st a) b = applyPatch st (a.comp b) := by
  simp [applyPatch, MLPatch.comp, owr_owr]

theorem applyProperty_patch (toNum : String → ℚ) (decode : String → ℚ × ℚ × ℚ)
    (st : MeshLight) (p : String × String) :
    applyProperty toNum decode st p = applyPatch st (propPatch toNum decode p) := by
  unfold applyProperty propPatch
  split_ifs <;> rfl

theorem foldl_patch (toNum : String → ℚ) (decode : String → ℚ × ℚ × ℚ)
    (props : List (String × String)) : ∀ (st : MeshLight) (a : MLPatch),
    props.foldl (applyProperty toNum decode) (applyPatch st a)
      = applyPatch st (props.foldl (fun a p => a.comp (propPatch toNum decode p)) a) := by
  induction props with
  | nil => intro st a; rfl
  | cons p ps ih =>
    intro st a
    simp only [List.foldl_cons, applyProperty_patch, applyPatch_comp]
    exact ih st (a.comp (propPatch toNum decode p))

theorem updateCharacteristics_patch (toNum : String → ℚ) (decode : String → ℚ × ℚ × ℚ)
    (st : MeshLight) (b : Bool) (props : List (String × String)) :
    updateCharacteristics toNum decode st b props
      = applyPatch { st with chars.onState := some b } (snapshotPatch toNum decode props) := by
  unfold updateCharacteristics snapshotPatch
  simpa using
    foldl_patch toNum decode props { st with chars.onState := some b } MLPatch.idPatch

theorem applyPatch_onState (st : MeshLight) (p : MLPatch) (b : Bool) :
    applyPatch { st with chars.onState := some b } p
      = { applyPatch st p with chars.onState := some b } := rfl

theorem deviceToUI_int (v : ℤ) : deviceToUI (v : ℚ) = (804 * v - 4300) / 9400 := by
  unfold deviceToUI _floatToRange _rangeToFloat jsRound
  rw [show ((v : ℚ) - 1800) / (6500 - 1800) * (555 - 153) + 153 + 1/2
      = ((804 * v - 4300 : ℤ) : ℚ) / ((9400 : ℕ) : ℚ) by push_cast; ring]
  exact Rat.floor_intCast_div_natCast _ _

theorem uiToDevice_int (u : ℤ) : uiToDevice (u : ℚ) = (9400 * u + 9402) / 804 := by
  unfold uiToDevice _floatToRange _rangeToFloat jsRound
  rw [show ((u : ℚ) - 153) / (555 - 153) * (6500 - 1800) + 1800 + 1/2
      = ((9400 * u + 9402 : ℤ) : ℚ) / ((804 : ℕ) : ℚ) by push_cast; ring]
  exact Rat.floor_intCast_div_natCast _ _

theorem uiToDevice_deviceToUI_exact (u : ℤ) :
    (804 * ((9400 * u + 9402) / 804) - 4300) / 9400 = u := by omega

/-- One hue/saturation write against an always-accepting remote toggles the
coalescing flag, issues one write exactly when the machine was armed, and
writes only to `"P1507"`. -/
theorem stepColorEvent_ok (st : MeshLight) (e : ColorEvent) :
    (stepColorEvent okRemote st e).1.cacheUpdated = !st.cacheUpdated
    ∧ (stepColorEvent okRemote st e).2.1.length
        = (if st.cacheUpdated then 1 else 0)
    ∧ ∀ w ∈ (stepColorEvent okRemote st e).2.1, w.pid = "P1507" := by
  obtain ⟨cs, cc, flag⟩ := st
  cases e <;> cases flag <;>
    refine ⟨rfl, rfl, ?_⟩ <;> intro w hw <;> simp [stepColorEvent, setHue,
      setSaturation, applyColorCache, okRemote] at hw <;> simp [hw]

/-- Unfolding of one step of `runColorEvents`. -/
theorem runColorEvents_cons {E : Type} (remote : RemoteWrite → Except E Unit)
    (st : MeshLight) (e : ColorEvent) (es : List ColorEvent) :
    runColorEvents remote st (e :: es)
      = ((runColorEvents remote (stepColorEvent remote st e).1 es).1,
         (stepColorEvent remote st e).2.1
           ++ (runColorEvents remote (stepColorEvent remote st e).1 es).2.1,
         (stepColorEvent remote st e).2.2
           :: (runColorEvents remote (stepColorEvent remote st e).1 es).2.2) := rfl

/-- Invariant behind claim C2: over any run of hue/saturation writes against
an always-accepting remote, twice the number of issued remote writes plus
the final flag bit equals the number of events plus the initial flag bit. -/
theorem runColorEvents_count (evs : List ColorEvent) : ∀ st : MeshLight,
    (runColorEvents okRemote st evs).2.1.length * 2
        + (if (runColorEvents okRemote st evs).1.cacheUpdated then 1 else 0)
      = evs.length + (if st.cacheUpdated then 1 else 0) := by
  induction evs with
  | nil => intro st; simp [runColorEvents]
  | cons e es ih =>
    intro st
    obtain ⟨cs, cc, flag⟩ := st
    obtain ⟨h1, h2, -⟩ := stepColorEvent_ok ⟨cs, cc, flag⟩ e
    have hih := ih (stepColorEvent okRemote ⟨cs, cc, flag⟩ e).1
    rw [h1] at hih
    rw [runColorEvents_cons]
    simp only [List.length_append, List.length_cons]
    rw [h2]
    cases flag <;> simp at hih ⊢ <;> omega

/-- Every remote write issued by a run of hue/saturation writes goes to the
color property `"P1507"`. -/
theorem runColorEvents_pid (evs : List ColorEvent) : ∀ st : MeshLight,
    ∀ w ∈ (runColorEvents okRemote st evs).2.1, w.pid = "P1507" := by
  induction evs with
  | nil => intro st w hw; simp [runColorEvents] at hw
  | cons e es ih =>
    intro st w hw
    rw [runColorEvents_cons, List.mem_append] at hw
    rcases hw with h | h
    · exact (stepColorEvent_ok st e).2.2 w h
    · exact ih _ w h

/-- C1: from the idle coalescing state, the sequence
`[setHue 120, setSaturation 50]` issues exactly one remote property write,
to `"P1507"`, carrying the 6-hex-digit encoding of HSV
(hue 120, saturation 50, value 100), and both callbacks acknowledge
success; `[setHue 120]` alone issues no remote write and still acknowledges
successfully. -/
theorem claim1_coalescing_pair :
    runColorEvents okRemote initMeshLight [.hue 120, .sat 50]
      = ({ chars := ⟨none, none, none, none, none⟩
           cache := ⟨some 120, some 50, none⟩
           cacheUpdated := false },
         [⟨"P1507", .hexColor (some 120) (some 50) 100⟩],
         [.ok (), .ok ()])
    ∧ runColorEvents okRemote initMeshLight [.hue 120]
      = ({ chars := ⟨none, none, none, none, none⟩
           cache := ⟨some 120, none, none⟩
           cacheUpdated := true },
         [], [.ok ()]) :=
  ⟨rfl, rfl⟩

/-- C2 counterexample: the two-hue sequence `[setHue 10, setHue 20]` from the
freshly constructed adapter issues a remote color write although no
saturation value was ever supplied — the encoded saturation component is the
undefined cache field (`none`). -/
theorem claim2_cex :
    (runColorEvents okRemote initMeshLight [.hue 10, .hue 20]).2.1
      = [⟨"P1507", .hexColor (some 20) none 100⟩]
    ∧ (runColorEvents okRemote initMeshLight [.hue 10, .hue 20]).1.cache.saturation
      = none :=
  ⟨rfl, rfl⟩

/-- C2 amended: from the freshly constructed adapter, a remote color write is
issued exactly on every second hue-or-saturation write (regardless of which
fields were supplied), always to `"P1507"`; the flush may therefore encode a
field that was never supplied. -/
theorem claim2_flush_every_second_write (evs : List ColorEvent) :
    (runColorEvents okRemote initMeshLight evs).2.1.length = evs.length / 2
    ∧ ∀ w ∈ (runColorEvents okRemote initMeshLight evs).2.1, w.pid = "P1507" := by
  constructor
  · have h := runColorEvents_count evs initMeshLight
    have h0 : (if initMeshLight.cacheUpdated = true then 1 else 0) = 0 := rfl
    rw [h0] at h
    cases hb : (runColorEvents okRemote initMeshLight evs).1.cacheUpdated <;>
      rw [hb] at h <;> simp at h <;> omega
  · exact runColorEvents_pid evs initMeshLight

/-- C3 counterexample: a hue write whose flush is rejected by the remote
still mutates the Color Cache — `cache.hue` changes from `none` to
`some 120` even though the callback receives the remote error. -/
theorem claim3_cex :
    (setHue failRemote { initMeshLight with cacheUpdated := true } 120).2.2
      = .error 7
    ∧ (setHue failRemote { initMeshLight with cacheUpdated := true } 120).1.cache.hue
      = some 120
    ∧ ({ initMeshLight with cacheUpdated := true } : MeshLight).cache.hue = none :=
  ⟨rfl, rfl, rfl⟩

/-- C3 amended: with a remote that rejects every write with error `e`, each
local write handler forwards exactly `e` to its callback whenever a remote
write is attempted; `setOn`, `setBrightness` and `setColorTemperature` leave
the entire state (in particular every Color Cache field) unchanged, while
`setHue`/`setSaturation` update exactly the targeted cache field before the
write is attempted, so that field remains updated after the failure (and no
write is attempted at all from the idle state). -/
theorem claim3_error_propagation (E : Type) (e : E) (st : MeshLight) (v : ℚ)
    (b : Bool) :
    setOn (fun _ => .error e) st b
      = (st, [⟨"P3", .str (if b then "1" else "0")⟩], .error e)
    ∧ setBrightness (fun _ => .error e) st v
      = (st, [⟨"P1501", .num v⟩], .error e)
    ∧ setColorTemperature (fun _ => .error e) st v
      = (st, [⟨"P1502", .num ((uiToDevice v : ℤ) : ℚ)⟩], .error e)
    ∧ setHue (fun _ => .error e) st v
      = cond st.cacheUpdated
          ({ st with cache.hue := some v },
           [⟨"P1507", .hexColor (some v) st.cache.saturation 100⟩], .error e)
          ({ st with cache.hue := some v, cacheUpdated := true }, [], .ok ())
    ∧ setSaturation (fun _ => .error e) st v
      = cond st.cacheUpdated
          ({ st with cache.saturation := some v },
           [⟨"P1507", .hexColor st.cache.hue (some v) 100⟩], .error e)
          ({ st with cache.saturation := some v, cacheUpdated := true }, [], .ok ()) := by
  obtain ⟨cs, cc, flag⟩ := st
  cases flag <;> exact ⟨rfl, rfl, rfl, rfl, rfl⟩

/-- C4 counterexample: a hue write arriving in the armed state whose remote
color write fails leaves the machine armed (`cacheUpdated = true`) — the
machine does not end in the idle state when the write fails. -/
theorem claim4_cex :
    (setHue failRemote { initMeshLight with cacheUpdated := true } 120).1.cacheUpdated
      = true
    ∧ (setHue failRemote { initMeshLight with cacheUpdated := true } 120).2.2
      = .error 7 :=
  ⟨rfl, rfl⟩

/-- C4 amended: every hue or saturation write arriving in the armed state
stores the new value, encodes the cached hue and saturation together with a
fixed value component of 100, issues exactly that one buffered remote color
write, and settles the callback with the write's outcome; on success the
machine ends idle, on failure it remains armed. -/
theorem claim4_armed_flush (E : Type) (remote : RemoteWrite → Except E Unit)
    (st : MeshLight) (v : ℚ) (h : st.cacheUpdated = true) :
    setHue remote st v
      = (match remote ⟨"P1507", .hexColor (some v) st.cache.saturation 100⟩ with
         | .ok _ =>
           ({ st with cache.hue := some v, cacheUpdated := false },
            [⟨"P1507", .hexColor (some v) st.cache.saturation 100⟩], .ok ())
         | .error e =>
           ({ st with cache.hue := some v },
            [⟨"P1507", .hexColor (some v) st.cache.saturation 100⟩], .error e))
    ∧ setSaturation remote st v
      = (match remote ⟨"P1507", .hexColor st.cache.hue (some v) 100⟩ with
         | .ok _ =>
           ({ st with cache.saturation := some v, cacheUpdated := false },
            [⟨"P1507", .hexColor st.cache.hue (some v) 100⟩], .ok ())
         | .error e =>
           ({ st with cache.saturation := some v },
            [⟨"P1507", .hexColor st.cache.hue (some v) 100⟩], .error e)) := by
  obtain ⟨cs, cc, flag⟩ := st
  simp only [MeshLight.cacheUpdated] at h
  subst h
  refine ⟨?_, ?_⟩ <;>
    simp only [setHue, setSaturation, applyColorCache, if_true]

/-- C4 witness: the armed-state hypothesis holds at the concrete armed state,
and the amended theorem applied there with an accepting remote yields the
single flush write and the idle final state. -/
theorem claim4_armed_flush_witness :
    ({ initMeshLight with cacheUpdated := true } : MeshLight).cacheUpdated = true
    ∧ setHue okRemote { initMeshLight with cacheUpdated := true } 120
      = ({ initMeshLight with cache.hue := some 120, cacheUpdated := false },
         [⟨"P1507", .hexColor (some 120) none 100⟩], .ok ()) :=
  ⟨rfl,
   (claim4_armed_flush Unit okRemote { initMeshLight with cacheUpdated := true }
     120 rfl).1⟩

/-- C5: both color-temperature conversions are the linear range remap
`round(((v - srcMin) / (srcMax - srcMin)) * (dstMax - dstMin) + dstMin)`:
device-to-UI computes `round(((v - 1800) / 4700) * 402 + 153)` (and is what
`updateColorTemp` stores), UI-to-device computes
`round(((v - 153) / 402) * 4700 + 1800)` (and is what `setColorTemperature`
writes), with boundary values `deviceToUI 1800 = 153`,
`deviceToUI 6500 = 555`, `uiToDevice 153 = 1800`, `uiToDevice 555 = 6500`. -/
theorem claim5_colortemp_remap :
    (∀ v : ℚ, deviceToUI v = jsRound ((v - 1800) / 4700 * 402 + 153))
    ∧ (∀ v : ℚ, uiToDevice v = jsRound ((v - 153) / 402 * 4700 + 1800))
    ∧ (∀ (toNum : String → ℚ) (st : MeshLight) (value : String),
        (updateColorTemp toNum st value).chars.colorTemp
          = some (deviceToUI (toNum value)))
    ∧ (∀ (E : Type) (remote : RemoteWrite → Except E Unit) (st : MeshLight)
        (value : ℚ),
        (setColorTemperature remote st value).2.1
          = [⟨"P1502", .num ((uiToDevice value : ℤ) : ℚ)⟩])
    ∧ deviceToUI 1800 = 153 ∧ deviceToUI 6500 = 555
    ∧ uiToDevice 153 = 1800 ∧ uiToDevice 555 = 6500 := by
  refine ⟨?_, ?_, ?_, ?_, ?_, ?_, ?_, ?_⟩
  · intro v
    unfold deviceToUI _floatToRange _rangeToFloat
    congr 1
    norm_num
  · intro v
    unfold uiToDevice _floatToRange _rangeToFloat
    congr 1
    norm_num
  · intro toNum st value; rfl
  · intro E remote st value
    simp only [setColorTemperature]
    split <;> rfl
  · rw [show (1800 : ℚ) = ((1800 : ℤ) : ℚ) by norm_num, deviceToUI_int]; decide
  · rw [show (6500 : ℚ) = ((6500 : ℤ) : ℚ) by norm_num, deviceToUI_int]; decide
  · rw [show (153 : ℚ) = ((153 : ℤ) : ℚ) by norm_num, uiToDevice_int]; decide
  · rw [show (555 : ℚ) = ((555 : ℤ) : ℚ) by norm_num, uiToDevice_int]; decide

/-- C6: for every integer device value in [1800, 6500], re-projecting the
UI value through the device range and back changes it by at most one unit
(in fact the code round-trips exactly). -/
theorem claim6_roundtrip (v : ℤ) (_h1 : 1800 ≤ v) (_h2 : v ≤ 6500) :
    (deviceToUI ((uiToDevice ((deviceToUI (v : ℚ) : ℤ) : ℚ) : ℤ) : ℚ)
      - deviceToUI (v : ℚ)).natAbs ≤ 1 := by
  rw [deviceToUI_int v, uiToDevice_int, deviceToUI_int,
    uiToDevice_deviceToUI_exact]
  simp

/-- C6 witness: the round-trip bound instantiated at device value 2000. -/
theorem claim6_roundtrip_witness :
    (1800 ≤ (2000 : ℤ)) ∧ ((2000 : ℤ) ≤ 6500)
    ∧ (deviceToUI ((uiToDevice ((deviceToUI ((2000 : ℤ) : ℚ) : ℤ) : ℚ) : ℤ) : ℚ)
        - deviceToUI ((2000 : ℤ) : ℚ)).natAbs ≤ 1 :=
  ⟨by decide, by decide, claim6_roundtrip 2000 (by decide) (by decide)⟩

/-- C7: a remote color update decodes the hex string, pushes the decoded hue
and saturation to the local characteristics, overwrites all three Color
Cache fields with the decoded components, and leaves the `cacheUpdated`
(pendingColorWrite) flag unchanged. -/
theorem claim7_updateColor (decode : String → ℚ × ℚ × ℚ) (st : MeshLight)
    (value : String) :
    updateColor decode st value
      = { st with
            chars.hue := some (decode value).1
            chars.saturation := some (decode value).2.1
            cache := ⟨some (decode value).1, some (decode value).2.1,
                      some (decode value).2.2⟩ }
    ∧ (updateColor decode st value).cacheUpdated = st.cacheUpdated :=
  ⟨rfl, rfl⟩

/-- C8 counterexample: a successful `setBrightness 42` from the freshly
constructed adapter mutates the Color Cache — `cache.brightness` goes from
`none` to `some 42` — contradicting the claim that `setBrightness` leaves
every cache field unchanged. -/
theorem claim8_cex :
    (setBrightness okRemote initMeshLight 42).1.cache.brightness = some 42
    ∧ initMeshLight.cache.brightness = none :=
  ⟨rfl, rfl⟩

/-- C8 amended: the Color Cache starts empty at construction; `setOn`,
`setColorTemperature`, and the brightness and color-temperature remote
projections leave every cache field unchanged, but a successful
`setBrightness` additionally writes its value into `cache.brightness`
(hue and saturation stay untouched, and a failed `setBrightness` changes
nothing). -/
theorem claim8_cache_mutators :
    initMeshLight.cache = ⟨none, none, none⟩
    ∧ (∀ (E : Type) (remote : RemoteWrite → Except E Unit) (st : MeshLight)
        (b : Bool), (setOn remote st b).1.cache = st.cache)
    ∧ (∀ (E : Type) (remote : RemoteWrite → Except E Unit) (st : MeshLight)
        (v : ℚ), (setColorTemperature remote st v).1.cache = st.cache)
    ∧ (∀ (st : MeshLight) (v : String), (updateBrightness st v).cache = st.cache)
    ∧ (∀ (toNum : String → ℚ) (st : MeshLight) (v : String),
        (updateColorTemp toNum st v).cache = st.cache)
    ∧ (∀ (E : Type) (remote : RemoteWrite → Except E Unit) (st : MeshLight)
        (v : ℚ),
        (setBrightness remote st v).1.cache
          = (match remote ⟨"P1501", .num v⟩ with
             | .ok _ => { st.cache with brightness := some v }
             | .error _ => st.cache)) := by
  refine ⟨rfl, ?_, ?_, ?_, ?_, ?_⟩
  · intro E remote st b
    simp only [setOn]
    split <;> try split
    all_goals rfl
  · intro E remote st v
    simp only [setColorTemperature]
    split <;> rfl
  · intro st v; rfl
  · intro toNum st v; rfl
  · intro E remote st v
    simp only [setBrightness]
    split <;> rfl

/-- C9: running the remote-to-local projection twice with an identical
power flag and property-list snapshot yields the same adapter state (in
particular identical local characteristic values) as running it once — the
read-path cache writes cause no accumulation between runs. -/
theorem claim9_projection_idempotent (toNum : String → ℚ)
    (decode : String → ℚ × ℚ × ℚ) (st : MeshLight) (b : Bool)
    (props : List (String × String)) :
    updateCharacteristics toNum decode
        (updateCharacteristics toNum decode st b props) b props
      = updateCharacteristics toNum decode st b props := by
  simp only [updateCharacteristics_patch]
  rw [show ({ applyPatch { st with chars.onState := some b }
          (snapshotPatch toNum decode props) with chars.onState := some b } : MeshLight)
      = applyPatch { st with chars.onState := some b }
          (snapshotPatch toNum decode props) from rfl]
  rw [applyPatch_comp, comp_self]

/-- C10: if the remote color write of a flush from the armed state rejects,
the machine stays armed (`cacheUpdated` remains `true`), the error reaches
that request's callback, and the very next hue or saturation write issues
another remote color write attempt encoding the then-current cache
contents. -/
theorem claim10_failed_flush_stays_armed (E E' : Type) (e : E)
    (remote : RemoteWrite → Except E Unit)
    (remote' : RemoteWrite → Except E' Unit)
    (st : MeshLight) (v v' v'' : ℚ)
    (harmed : st.cacheUpdated = true)
    (hfail : remote ⟨"P1507", .hexColor (some v) st.cache.saturation 100⟩
      = .error e) :
    (setHue remote st v).1.cacheUpdated = true
    ∧ (setHue remote st v).2.2 = .error e
    ∧ (setHue remote st v).2.1
        = [⟨"P1507", .hexColor (some v) st.cache.saturation 100⟩]
    ∧ (setSaturation remote' (setHue remote st v).1 v').2.1
        = [⟨"P1507", .hexColor (some v) (some v') 100⟩]
    ∧ (setHue remote' (setHue remote st v).1 v'').2.1
        = [⟨"P1507", .hexColor (some v'') st.cache.saturation 100⟩] := by
  obtain ⟨cs, cc, flag⟩ := st
  simp only at harmed hfail
  subst harmed
  refine ⟨?_, ?_, ?_, ?_, ?_⟩ <;>
    simp only [setHue, setSaturation, applyColorCache, if_true, hfail] <;>
    try rfl
  · split <;> rfl
  · split <;> rfl

/-- C10 witness: the failed-flush behaviour instantiated at the concrete
armed state with empty cache, a rejecting remote, and follow-up saturation
and hue writes against an accepting remote. -/
theorem claim10_failed_flush_stays_armed_witness :
    (({ initMeshLight with cacheUpdated := true } : MeshLight).cacheUpdated = true)
    ∧ (failRemote ⟨"P1507", .hexColor (some 120) none 100⟩ = .error 7)
    ∧ ((setHue failRemote { initMeshLight with cacheUpdated := true } 120).1.cacheUpdated = true
       ∧ (setHue failRemote { initMeshLight with cacheUpdated := true } 120).2.2 = .error 7
       ∧ (setHue failRemote { initMeshLight with cacheUpdated := true } 120).2.1
           = [⟨"P1507", .hexColor (some 120) none 100⟩]
       ∧ (setSaturation okRemote
            (setHue failRemote { initMeshLight with cacheUpdated := true } 120).1 50).2.1
           = [⟨"P1507", .hexColor (some 120) (some 50) 100⟩]
       ∧ (setHue okRemote
            (setHue failRemote { initMeshLight with cacheUpdated := true } 120).1 200).2.1
           = [⟨"P1507", .hexColor (some 200) none 100⟩]) :=
  ⟨rfl, rfl,
   claim10_failed_flush_stays_armed ℕ Unit 7 failRemote okRemote
     { initMeshLight with cacheUpdated := true } 120 50 200 rfl rfl⟩

end WyzeMeshLight
